import Mathlib

/-!
Shallow embedding of `src/video/ffmpeg.c` from moonlight-embedded: the decoder
selection cascade (`ffmpeg_init`), hardware-acceleration negotiation
(`hwaccel_setup`, `get_hw_format`), the frame ring, the decode/receive engine
(`ffmpeg_decode`, `ffmpeg_get_frame`) and teardown (`ffmpeg_destroy`).

External libavcodec/libavutil calls are modelled by oracles collected in `Env`
(which decoder names are compiled in, which `avcodec_open2` calls succeed,
which hardware device creations succeed, which allocations succeed); the
module-level static variables of the C file form the state `FfmpegState`.
C static storage is zero-initialized, so `hw_pix_fmt` starts at the integer 0,
which in FFmpeg's pixel-format enumeration is `AV_PIX_FMT_YUV420P`
(`AV_PIX_FMT_NONE` is -1).
-/

namespace MoonlightFFmpeg

/-- FFmpeg constant: `AV_PIX_FMT_NONE = -1`. -/
def AV_PIX_FMT_NONE : Int := -1

/-- FFmpeg constant: `AV_PIX_FMT_YUV420P = 0` (first real entry of the enum). -/
def AV_PIX_FMT_YUV420P : Int := 0

/-- FFmpeg constant: `AV_HWDEVICE_TYPE_NONE = 0`. -/
def AV_HWDEVICE_TYPE_NONE : Int := 0

/-- `enum decoders` from ffmpeg.h: the value stored in `ffmpeg_decoder`. -/
inductive DecoderKind
  | SOFTWARE
  | VAAPI
deriving DecidableEq

/-- The fields of the `AVCodecContext` that ffmpeg.c writes before opening:
flags (low delay, output corrupt, show all), error recognition, threading,
dimensions, pixel format, the `get_format` callback and the hardware device
reference installed by `hwaccel_setup`, and whether `avcodec_open2`
succeeded on it. -/
structure Ctx where
  lowDelay : Bool
  outputCorrupt : Bool
  showAll : Bool
  errExplode : Bool
  threadSlice : Bool
  threadCount : Int
  width : Int
  height : Int
  pixFmt : Int
  getFormatSet : Bool
  hwDeviceRef : Bool
  opened : Bool
deriving DecidableEq

/-- A freshly allocated context (`avcodec_alloc_context3`): no flags set,
pixel format `AV_PIX_FMT_NONE`, not opened. -/
def allocCtx : Ctx :=
  { lowDelay := false, outputCorrupt := false, showAll := false, errExplode := false
    threadSlice := false, threadCount := 0, width := 0, height := 0
    pixFmt := AV_PIX_FMT_NONE, getFormatSet := false, hwDeviceRef := false, opened := false }

/-- One `AVCodecHWConfig` as read by `hwaccel_setup`: whether its methods
include `AV_CODEC_HW_CONFIG_METHOD_HW_DEVICE_CTX`, its device type and its
pixel format. -/
structure HWConfig where
  deviceCtxMethod : Bool
  deviceType : Int
  pixFmt : Int
deriving DecidableEq

/-- The environment: outcomes of the external libavcodec/libavutil calls.
`find name` is whether `avcodec_find_decoder_by_name(name)` is non-NULL,
`openOk name` whether `avcodec_open2` succeeds for that decoder,
`hwConfigs name` the list returned by successive `avcodec_get_hw_config`
calls, `createOk ty` whether `av_hwdevice_ctx_create` succeeds for device
type `ty`, and the `...AllocOk` fields whether the respective allocations
succeed (`frameAllocOk` indexed by ring-slot number). -/
structure Env where
  find : String → Bool
  openOk : String → Bool
  hwConfigs : String → List HWConfig
  createOk : Int → Bool
  pktAllocOk : Bool
  ctxAllocOk : Bool
  arrayAllocOk : Bool
  frameAllocOk : Nat → Bool
  swFrameAllocOk : Bool

/-- The module-level static state of ffmpeg.c: `pkt` (and the size last
stored into it), `decoder`, `decoder_ctx`, `dec_frames` (the malloc'd slot
array, each entry recording whether its `AVFrame` is allocated),
`hw_device_ctx`, `hw_pix_fmt`, `sw_frame`, `dec_frames_cnt`,
`current_frame`, `next_frame` and `ffmpeg_decoder`. -/
structure FfmpegState where
  pkt : Bool
  pktSize : Int
  decoder : Option String
  decoderCtx : Option Ctx
  decFrames : Option (List Bool)
  hwDeviceCtx : Bool
  hwPixFmt : Int
  swFrame : Bool
  decFramesCnt : Nat
  currentFrame : Nat
  nextFrame : Nat
  ffmpegDecoder : DecoderKind
deriving DecidableEq

/-- C statics are zero-initialized: all pointers NULL, all counters 0 and,
crucially, `hw_pix_fmt = 0`, which is `AV_PIX_FMT_YUV420P`, not
`AV_PIX_FMT_NONE`. -/
def initialStatics : FfmpegState :=
  { pkt := false, pktSize := 0, decoder := none, decoderCtx := none
    decFrames := none, hwDeviceCtx := false, hwPixFmt := 0, swFrame := false
    decFramesCnt := 0, currentFrame := 0, nextFrame := 0
    ffmpegDecoder := DecoderKind.SOFTWARE }

/-- The `get_hw_format` callback (ffmpeg.c lines 50-59): scan the candidate
pixel formats for the recorded `hw_pix_fmt`; return it if present, else
`AV_PIX_FMT_NONE`. The C list is terminated by -1; here it is an explicit
list of the formats before the terminator. -/
def get_hw_format (hwPixFmt : Int) : List Int → Int
  | [] => AV_PIX_FMT_NONE
  | p :: ps => if p = hwPixFmt then p else get_hw_format hwPixFmt ps

/-- The configuration loop of `hwaccel_setup` (ffmpeg.c lines 64-86), over
the remaining configurations. Arguments after the list: the local `type`,
then the globals `hw_pix_fmt` and `hw_device_ctx`, then `decoder_ctx`.
For a configuration with the HW_DEVICE_CTX method: record its type and
pixel format, attempt `av_hwdevice_ctx_create`; on failure reset
`hw_pix_fmt` to `AV_PIX_FMT_NONE`, `type` to `AV_HWDEVICE_TYPE_NONE` (the
failed create also leaves `hw_device_ctx` NULL) and continue; on success
install `get_hw_format` and a device reference on the context and stop. -/
def hwaccelLoop (createOk : Int → Bool) :
    List HWConfig → Int → Int → Bool → Ctx → Int × Int × Bool × Ctx
  | [], ty, pf, dev, ctx => (ty, pf, dev, ctx)
  | c :: rest, ty, pf, dev, ctx =>
    if c.deviceCtxMethod then
      if createOk c.deviceType then
        (c.deviceType, c.pixFmt, true,
         { ctx with getFormatSet := true, hwDeviceRef := true })
      else
        hwaccelLoop createOk rest AV_HWDEVICE_TYPE_NONE AV_PIX_FMT_NONE false ctx
    else
      hwaccelLoop createOk rest ty pf dev ctx

/-- Result of `hwaccel_setup`: the boolean return value plus the updated
globals `hw_pix_fmt`, `hw_device_ctx` and the updated `decoder_ctx`. -/
structure HwSetupOut where
  ok : Bool
  hwPixFmt : Int
  hwDeviceCtx : Bool
  ctx : Ctx
deriving DecidableEq

/-- `hwaccel_setup` (ffmpeg.c lines 61-94): run the configuration loop with
the local `type` starting at `AV_HWDEVICE_TYPE_NONE`; the function returns
true iff the final `type` differs from `AV_HWDEVICE_TYPE_NONE`. -/
def hwaccel_setup (createOk : Int → Bool) (configs : List HWConfig)
    (pf0 : Int) (dev0 : Bool) (ctx : Ctx) : HwSetupOut :=
  let r := hwaccelLoop createOk configs AV_HWDEVICE_TYPE_NONE pf0 dev0 ctx
  { ok := decide (r.1 ≠ AV_HWDEVICE_TYPE_NONE)
    hwPixFmt := r.2.1, hwDeviceCtx := r.2.2.1, ctx := r.2.2.2 }

/-- The video-format mask of `ffmpeg_init`: which of
`VIDEO_FORMAT_MASK_H264` / `_H265` / `_AV1` are set. -/
structure VideoFormat where
  h264 : Bool
  h265 : Bool
  av1 : Bool
deriving DecidableEq

/-- The `perf_lvl` bits read by `ffmpeg_init`: `VAAPI_ACCELERATION` and
`SLICE_THREADING`. -/
structure PerfLvl where
  vaapiAccel : Bool
  sliceThreading : Bool
deriving DecidableEq

/-- `avcodec_find_decoder_by_name(name)`: `some name` if that decoder is
compiled into FFmpeg, else `none` (NULL). -/
def findByName (env : Env) (name : String) : Option String :=
  if env.find name then some name else none

/-- Outcome of the candidate-selection lines of one loop iteration. -/
inductive SelectRes
  | unsupported
  | sel (d : Option String)
deriving DecidableEq

/-- The candidate-selection lines of `ffmpeg_init` (lines 114-138) for try
index `t`. `decoder` is a static variable: a try index whose guards do not
assign it leaves the previous value `prev` in place (this is how the AV1
branch retries the value left by try 1 on tries 2-4, and how the
hardware-preference branches skip tries 0-3). The final `else` is the
unsupported-format early return. -/
def selectDecoder (env : Env) (fmt : VideoFormat) (kind : DecoderKind)
    (prev : Option String) (t : Nat) : SelectRes :=
  if fmt.h264 then
    SelectRes.sel
      (if kind = DecoderKind.SOFTWARE then
        if t = 0 then findByName env "h264_nvv4l2"
        else if t = 1 then findByName env "h264_nvmpi"
        else if t = 2 then findByName env "h264_omx"
        else if t = 3 then findByName env "h264_v4l2m2m"
        else if t = 4 then findByName env "h264"
        else prev
      else
        if t = 4 then findByName env "h264" else prev)
  else if fmt.h265 then
    SelectRes.sel
      (if kind = DecoderKind.SOFTWARE then
        if t = 0 then findByName env "hevc_nvv4l2"
        else if t = 1 then findByName env "hevc_nvmpi"
        else if t = 2 then findByName env "hevc_omx"
        else if t = 3 then findByName env "hevc_v4l2m2m"
        else if t = 4 then findByName env "hevc"
        else prev
      else
        if t = 4 then findByName env "hevc" else prev)
  else if fmt.av1 then
    SelectRes.sel
      (if kind = DecoderKind.SOFTWARE then
        if t = 0 then findByName env "libdav1d"
        else if t = 1 then findByName env "av1"
        else prev
      else
        if t = 1 then findByName env "av1" else prev)
  else SelectRes.unsupported

/-- Trace events of the init loop: the "Trying decoder" log, and each
`avcodec_open2` attempt with the context's pixel format and its outcome. -/
inductive Event
  | tried (name : String)
  | opened (name : String) (ctxPixFmt : Int) (success : Bool)
deriving DecidableEq

/-- Result of one candidate body / of the whole try loop: either fall
through to the next iteration (`done`) or an early `return` from
`ffmpeg_init` (`earlyRet`). -/
inductive LoopRes
  | done (st : FfmpegState) (ev : List Event)
  | earlyRet (code : Int) (st : FfmpegState) (ev : List Event)
deriving DecidableEq

/-- The body of one loop iteration of `ffmpeg_init` after a non-NULL
decoder was selected (lines 144-189): log, allocate the context (early
`return -1` on failure), set the flags/threading/dimensions, attempt
hardware negotiation iff `avcodec_get_hw_config(decoder, 0)` is non-NULL,
fall back to `AV_PIX_FMT_YUV420P` when it was not attempted or failed, then
attempt `avcodec_open2`: on failure free the context and continue; on
success keep the opened context and continue — the C loop has no `break`
after a successful open. -/
def tryCandidate (env : Env) (slice : Bool) (threadCount width height : Int)
    (name : String) (st : FfmpegState) (ev : List Event) : LoopRes :=
  let ev := ev ++ [Event.tried name]
  if env.ctxAllocOk then
    let ctx0 : Ctx :=
      { allocCtx with
        lowDelay := true, outputCorrupt := true, showAll := true, errExplode := true
        threadSlice := slice, threadCount := if slice then threadCount else 1
        width := width, height := height }
    let (hwaccel, pf1, dev1, ctx1) :=
      if (env.hwConfigs name).isEmpty then
        (false, st.hwPixFmt, st.hwDeviceCtx, ctx0)
      else
        let r := hwaccel_setup env.createOk (env.hwConfigs name) st.hwPixFmt st.hwDeviceCtx ctx0
        (r.ok, r.hwPixFmt, r.hwDeviceCtx, r.ctx)
    let ctx2 := if hwaccel then ctx1 else { ctx1 with pixFmt := AV_PIX_FMT_YUV420P }
    let st := { st with hwPixFmt := pf1, hwDeviceCtx := dev1 }
    if env.openOk name then
      LoopRes.done { st with decoderCtx := some { ctx2 with opened := true } }
        (ev ++ [Event.opened name ctx2.pixFmt true])
    else
      LoopRes.done { st with decoderCtx := none }
        (ev ++ [Event.opened name ctx2.pixFmt false])
  else
    LoopRes.earlyRet (-1) { st with decoderCtx := none } ev

/-- The `for (int try = 0; try < 5; try++)` loop of `ffmpeg_init` over the
remaining try indices: select a candidate (early `return -1` on an
unsupported format), store it in the static `decoder`, skip the iteration
if it is NULL, otherwise run the candidate body. -/
def tryLoop (env : Env) (fmt : VideoFormat) (slice : Bool)
    (threadCount width height : Int) :
    List Nat → FfmpegState → List Event → LoopRes
  | [], st, ev => LoopRes.done st ev
  | t :: ts, st, ev =>
    match selectDecoder env fmt st.ffmpegDecoder st.decoder t with
    | SelectRes.unsupported => LoopRes.earlyRet (-1) st ev
    | SelectRes.sel d =>
      let st1 := { st with decoder := d }
      match d with
      | none => tryLoop env fmt slice threadCount width height ts st1 ev
      | some name =>
        match tryCandidate env slice threadCount width height name st1 ev with
        | LoopRes.done st2 ev2 =>
          tryLoop env fmt slice threadCount width height ts st2 ev2
        | LoopRes.earlyRet c st2 ev2 => LoopRes.earlyRet c st2 ev2

/-- The ring-slot allocation loop of `ffmpeg_init` (lines 206-212), started
at slot index `i` with `fuel` slots left to allocate. Returns the list of
written array entries and whether all allocations succeeded; on the first
failure the NULL entry is written and the loop stops (the C code
`return -1`s without freeing the earlier slots). -/
def allocFrames (ok : Nat → Bool) (i : Nat) : Nat → List Bool × Bool
  | 0 => ([], true)
  | fuel + 1 =>
    if ok i then
      let r := allocFrames ok (i + 1) fuel
      (true :: r.1, r.2)
    else ([false], false)

/-- `ffmpeg_init` (ffmpeg.c lines 98-223): allocate the packet, pick
software vs VAAPI preference from `perf_lvl`, run the five-try candidate
loop, check `decoder == NULL` (not `decoder_ctx`), then build the frame
ring and, if a hardware device context exists, allocate `sw_frame`.
Returns the C return code, the final static state and the event trace.
(The `HAVE_VAAPI`-guarded `vaapi_init` call lives in another translation
unit and is outside this model.) -/
def ffmpeg_init (env : Env) (videoFormat : VideoFormat) (width height : Int)
    (perfLvl : PerfLvl) (bufferCount : Nat) (threadCount : Int) :
    Int × FfmpegState × List Event :=
  if env.pktAllocOk then
    let st0 := { initialStatics with
      pkt := true
      ffmpegDecoder := if perfLvl.vaapiAccel then DecoderKind.VAAPI else DecoderKind.SOFTWARE }
    match tryLoop env videoFormat perfLvl.sliceThreading threadCount width height
        [0, 1, 2, 3, 4] st0 [] with
    | LoopRes.earlyRet c st ev => (c, st, ev)
    | LoopRes.done st ev =>
      if st.decoder = none then (-1, st, ev)
      else
        let st1 := { st with decFramesCnt := bufferCount }
        if env.arrayAllocOk then
          let r := allocFrames env.frameAllocOk 0 bufferCount
          let st2 := { st1 with decFrames := some r.1 }
          if r.2 then
            let st3 :=
              if st2.hwDeviceCtx then { st2 with swFrame := env.swFrameAllocOk } else st2
            (0, st3, ev)
          else (-1, st2, ev)
        else (-1, st1, ev)
  else (-1, initialStatics, [])

/-- Resources freed by `ffmpeg_destroy`, one event per `av_*_free`/unref
call actually performed. -/
inductive FreeEvent
  | swFrame
  | hwDev
  | pkt
  | ctx
  | slot (i : Nat)
deriving DecidableEq

/-- The slot-freeing loop of `ffmpeg_destroy` (lines 239-242) over the
given indices: free `dec_frames[i]` iff it is non-NULL. -/
def freeSlotsAux (slots : List Bool) : List Nat → List Bool × List FreeEvent
  | [] => (slots, [])
  | i :: is =>
    if slots.getD i false then
      let r := freeSlotsAux (slots.set i false) is
      (r.1, FreeEvent.slot i :: r.2)
    else freeSlotsAux slots is

/-- `ffmpeg_destroy` (ffmpeg.c lines 227-244): free `sw_frame` and unref
`hw_device_ctx` if present, free the packet (unconditional call, NULLs the
pointer), free `decoder_ctx` if present, and free each allocated ring slot
for indices `0 ≤ i < dec_frames_cnt`. The `dec_frames` array itself is
never `free`d. Returns the state and the list of free operations
performed. -/
def ffmpeg_destroy (st : FfmpegState) : FfmpegState × List FreeEvent :=
  let ev1 : List FreeEvent := if st.swFrame then [FreeEvent.swFrame] else []
  let ev2 : List FreeEvent := if st.hwDeviceCtx then [FreeEvent.hwDev] else []
  let ev3 : List FreeEvent := if st.pkt then [FreeEvent.pkt] else []
  let ev4 : List FreeEvent := if st.decoderCtx.isSome then [FreeEvent.ctx] else []
  let (df, ev5) :=
    match st.decFrames with
    | some slots =>
      let r := freeSlotsAux slots (List.range st.decFramesCnt)
      (some r.1, r.2)
    | none => (none, ([] : List FreeEvent))
  ({ st with swFrame := false, hwDeviceCtx := false, pkt := false
             decoderCtx := none, decFrames := df },
   ev1 ++ ev2 ++ ev3 ++ ev4 ++ ev5)

/-- Outcome of `avcodec_receive_frame` for one `ffmpeg_get_frame` call:
success with the produced frame's pixel format, `AVERROR(EAGAIN)`, or
another error code. -/
inductive RecvResult
  | ok (format : Int)
  | again
  | err (code : Int)
deriving DecidableEq

/-- What `ffmpeg_get_frame` returns: a ring slot (`dec_frames[i]`), the
shared `sw_frame` transfer target, or NULL (`none`). -/
inductive FrameRef
  | ring (i : Nat)
  | sw
deriving DecidableEq

/-- Result of one `ffmpeg_get_frame` call: the returned frame pointer,
whether `av_hwframe_transfer_data` was invoked, and the updated state. -/
structure GetFrameOut where
  frame : Option FrameRef
  transferAttempted : Bool
  state : FfmpegState
deriving DecidableEq

/-- `ffmpeg_get_frame` (ffmpeg.c lines 246-273): receive into
`dec_frames[next_frame]`; on success advance `current_frame`/`next_frame`
modulo `dec_frames_cnt`, then — only when the decoder is software or
`native_frame` is set — return the frame, transferring it through
`sw_frame` first when its format equals `hw_pix_fmt` (a failed transfer
returns NULL). A hardware decoder with `native_frame` false falls out of
the `if` and returns NULL. `EAGAIN` and other errors return NULL with the
indices unchanged. -/
def ffmpeg_get_frame (st : FfmpegState) (nativeFrame : Bool) (recv : RecvResult)
    (transferOk : Bool) : GetFrameOut :=
  match recv with
  | RecvResult.ok format =>
    let cur := st.nextFrame
    let st1 := { st with currentFrame := cur, nextFrame := (cur + 1) % st.decFramesCnt }
    if st.ffmpegDecoder = DecoderKind.SOFTWARE ∨ nativeFrame then
      if format = st.hwPixFmt then
        if transferOk then
          { frame := some FrameRef.sw, transferAttempted := true, state := st1 }
        else
          { frame := none, transferAttempted := true, state := st1 }
      else
        { frame := some (FrameRef.ring cur), transferAttempted := false, state := st1 }
    else
      { frame := none, transferAttempted := false, state := st1 }
  | RecvResult.again => { frame := none, transferAttempted := false, state := st }
  | RecvResult.err _ => { frame := none, transferAttempted := false, state := st }

/-- `ffmpeg_decode` (ffmpeg.c lines 277-291): store the input into the
packet, send it (`sendErr` is the `avcodec_send_packet` result) and return
`sendErr` if negative, else 0. -/
def ffmpeg_decode (st : FfmpegState) (inlen : Int) (sendErr : Int) : Int × FfmpegState :=
  (if sendErr < 0 then sendErr else 0, { st with pktSize := inlen })

/-- One call of the decode/receive engine, with the oracle outcomes of its
external calls. -/
inductive Op
  | dec (inlen : Int) (sendErr : Int)
  | gf (nativeFrame : Bool) (recv : RecvResult) (transferOk : Bool)

/-- Run an interleaving of `ffmpeg_decode` / `ffmpeg_get_frame` calls. -/
def runOps : FfmpegState → List Op → FfmpegState
  | st, [] => st
  | st, Op.dec n e :: ops => runOps (ffmpeg_decode st n e).2 ops
  | st, Op.gf nf r t :: ops => runOps (ffmpeg_get_frame st nf r t).state ops

/-- The state after `k` successful decode/receive cycles: each cycle is an
`ffmpeg_get_frame` call in which `avcodec_receive_frame` yields a frame of
pixel format `f` (called with `native_frame` false and a transfer oracle
that would succeed). -/
def cycleState (f : Int) (st0 : FfmpegState) : Nat → FfmpegState
  | 0 => st0
  | k + 1 => (ffmpeg_get_frame (cycleState f st0 k) false (RecvResult.ok f) true).state

/-! Concrete environments used to evaluate the embedding on specific
configurations. -/

/-- `videoFormat` with only the H.264 mask set. -/
def fmtH264 : VideoFormat := { h264 := true, h265 := false, av1 := false }

/-- `videoFormat` with only the AV1 mask set. -/
def fmtAV1 : VideoFormat := { h264 := false, h265 := false, av1 := true }

/-- `perf_lvl` without `VAAPI_ACCELERATION` and without `SLICE_THREADING`. -/
def perfSW : PerfLvl := { vaapiAccel := false, sliceThreading := false }

/-- `perf_lvl` with `VAAPI_ACCELERATION` set. -/
def perfHW : PerfLvl := { vaapiAccel := true, sliceThreading := false }

/-- A build where `h264_nvv4l2` and the generic `h264` decoder are compiled
in, every decoder opens successfully, no decoder advertises hardware
configurations, and every allocation succeeds. -/
def envFirstOpens : Env :=
  { find := fun s => s == "h264_nvv4l2" || s == "h264"
    openOk := fun _ => true
    hwConfigs := fun _ => []
    createOk := fun _ => false
    pktAllocOk := true, ctxAllocOk := true, arrayAllocOk := true
    frameAllocOk := fun _ => true, swFrameAllocOk := true }

/-- A build where only the generic `h264` decoder is compiled in and
`avcodec_open2` fails on every attempt. -/
def envAllOpensFail : Env :=
  { envFirstOpens with find := fun s => s == "h264", openOk := fun _ => false }

/-- A build where no candidate decoder is compiled in at all. -/
def envNothingFound : Env :=
  { envFirstOpens with find := fun _ => false }

/-- A build for the VAAPI path: only the generic `h264` decoder, which
advertises one HW_DEVICE_CTX configuration (device type 1, hardware pixel
format 100) whose device creation succeeds. -/
def envVaapi : Env :=
  { envFirstOpens with
    find := fun s => s == "h264"
    hwConfigs := fun _ => [{ deviceCtxMethod := true, deviceType := 1, pixFmt := 100 }]
    createOk := fun _ => true }

/-- A software AV1 build: `libdav1d` and the generic `av1` decoder compiled
in, neither advertising hardware configurations, so hardware negotiation is
never performed and the static `hw_pix_fmt` keeps its zero initializer. -/
def envSoftwareAv1 : Env :=
  { envFirstOpens with find := fun s => s == "libdav1d" || s == "av1" }

/-- A build where only the generic `h264` decoder is compiled in and opens,
and the allocation of ring slot number `i0` fails (all earlier slots
succeed). -/
def envSlotFails (i0 : Nat) : Env :=
  { envFirstOpens with
    find := fun s => s == "h264"
    frameAllocOk := fun j => decide (j < i0) }

/-- The static fields that the candidate try loop of `ffmpeg_init` never
writes (it writes only `decoder`, `decoder_ctx`, `hw_pix_fmt` and
`hw_device_ctx`). -/
def LoopUntouched (st st' : FfmpegState) : Prop :=
  st'.pkt = st.pkt ∧ st'.pktSize = st.pktSize ∧ st'.decFrames = st.decFrames ∧
  st'.decFramesCnt = st.decFramesCnt ∧ st'.currentFrame = st.currentFrame ∧
  st'.nextFrame = st.nextFrame ∧ st'.ffmpegDecoder = st.ffmpegDecoder ∧
  st'.swFrame = st.swFrame

/-- The static fields that `ffmpeg_decode` and `ffmpeg_get_frame` never
write (they write only the packet payload and the ring indices). -/
def EngineUntouched (st st' : FfmpegState) : Prop :=
  st'.pkt = st.pkt ∧ st'.decoder = st.decoder ∧ st'.decoderCtx = st.decoderCtx ∧
  st'.decFrames = st.decFrames ∧ st'.hwDeviceCtx = st.hwDeviceCtx ∧
  st'.hwPixFmt = st.hwPixFmt ∧ st'.swFrame = st.swFrame ∧
  st'.decFramesCnt = st.decFramesCnt ∧ st'.ffmpegDecoder = st.ffmpegDecoder

/-! Theorems. -/

theorem loopUntouched_refl (st : FfmpegState) : LoopUntouched st st := by
  simp [LoopUntouched]

theorem loopUntouched_trans {a b c : FfmpegState}
    (h1 : LoopUntouched a b) (h2 : LoopUntouched b c) : LoopUntouched a c := by
  obtain ⟨x1, x2, x3, x4, x5, x6, x7, x8⟩ := h1
  obtain ⟨y1, y2, y3, y4, y5, y6, y7, y8⟩ := h2
  exact ⟨y1.trans x1, y2.trans x2, y3.trans x3, y4.trans x4, y5.trans x5,
    y6.trans x6, y7.trans x7, y8.trans x8⟩

theorem tryCandidate_done_untouched {env slice tc w h name st ev st' ev'}
    (hc : tryCandidate env slice tc w h name st ev = LoopRes.done st' ev') :
    LoopUntouched st st' := by
  unfold tryCandidate at hc
  by_cases hA : env.ctxAllocOk <;>
    by_cases hE : (env.hwConfigs name).isEmpty <;>
      by_cases hO : env.openOk name <;>
        simp only [hA, hE, hO, if_true, if_false, Bool.false_eq_true,
          LoopRes.done.injEq, reduceIte] at hc <;>
        first
        | (obtain ⟨h1, h2⟩ := hc
           subst h1
           simp [LoopUntouched])
        | cases hc

theorem tryCandidate_earlyRet {env slice tc w h name st ev c st' ev'}
    (hc : tryCandidate env slice tc w h name st ev = LoopRes.earlyRet c st' ev') :
    c = -1 ∧ LoopUntouched st st' := by
  unfold tryCandidate at hc
  by_cases hA : env.ctxAllocOk <;>
    by_cases hE : (env.hwConfigs name).isEmpty <;>
      by_cases hO : env.openOk name <;>
        simp only [hA, hE, hO, if_true, if_false, Bool.false_eq_true,
          LoopRes.earlyRet.injEq, reduceIte] at hc <;>
        first
        | (obtain ⟨h0, h1, h2⟩ := hc
           subst h1
           exact ⟨h0.symm, by simp [LoopUntouched]⟩)
        | cases hc

theorem tryLoop_done_untouched {env fmt slice tc w h}
    {ts : List Nat} {st ev st' ev'}
    (hl : tryLoop env fmt slice tc w h ts st ev = LoopRes.done st' ev') :
    LoopUntouched st st' := by
  induction ts generalizing st ev with
  | nil => cases hl; exact loopUntouched_refl _
  | cons t ts ih =>
    unfold tryLoop at hl
    split at hl
    · cases hl
    · rename_i d _
      cases d with
      | none =>
        simp only at hl
        exact loopUntouched_trans (by simp [LoopUntouched]) (ih hl)
      | some name =>
        simp only at hl
        split at hl
        · rename_i st2 ev2 hc
          exact loopUntouched_trans
            (loopUntouched_trans (by simp [LoopUntouched]) (tryCandidate_done_untouched hc))
            (ih hl)
        · cases hl

theorem tryLoop_earlyRet {env fmt slice tc w h}
    {ts : List Nat} {st ev c st' ev'}
    (hl : tryLoop env fmt slice tc w h ts st ev = LoopRes.earlyRet c st' ev') :
    c = -1 ∧ LoopUntouched st st' := by
  induction ts generalizing st ev with
  | nil => cases hl
  | cons t ts ih =>
    unfold tryLoop at hl
    split at hl
    · cases hl
      exact ⟨rfl, loopUntouched_refl _⟩
    · rename_i d _
      cases d with
      | none =>
        simp only at hl
        obtain ⟨hc, hu⟩ := ih hl
        exact ⟨hc, loopUntouched_trans (by simp [LoopUntouched]) hu⟩
      | some name =>
        simp only at hl
        split at hl
        · rename_i st2 ev2 hc
          obtain ⟨hc1, hu⟩ := ih hl
          exact ⟨hc1, loopUntouched_trans
            (loopUntouched_trans (by simp [LoopUntouched]) (tryCandidate_done_untouched hc)) hu⟩
        · rename_i c2 st2 ev2 hc
          cases hl
          obtain ⟨hc1, hu⟩ := tryCandidate_earlyRet hc
          exact ⟨hc1, loopUntouched_trans (by simp [LoopUntouched]) hu⟩

theorem allocFrames_all_ok {ok : Nat → Bool} :
    ∀ {n i : Nat}, (allocFrames ok i n).2 = true →
      (allocFrames ok i n).1 = List.replicate n true := by
  intro n
  induction n with
  | zero => intro i _; rfl
  | succ m ih =>
    intro i hs
    unfold allocFrames at hs ⊢
    by_cases hok : ok i <;> simp [hok, List.replicate_succ] at hs ⊢
    exact ih hs

theorem init_ok_fields {env : Env} {vf : VideoFormat} {w h : Int} {perf : PerfLvl}
    {N : Nat} {tc : Int} {st : FfmpegState} {ev : List Event}
    (hinit : ffmpeg_init env vf w h perf N tc = (0, st, ev)) :
    st.currentFrame = 0 ∧ st.nextFrame = 0 ∧ st.decFramesCnt = N ∧
    st.pkt = true ∧ st.decFrames = some (List.replicate N true) := by
  unfold ffmpeg_init at hinit
  by_cases hp : env.pktAllocOk
  · simp only [hp, if_true] at hinit
    split at hinit
    · rename_i c st1 ev1 heq
      obtain ⟨hc, -⟩ := tryLoop_earlyRet heq
      subst hc
      simp [Prod.ext_iff] at hinit
    · rename_i st1 ev1 heq
      have hu := tryLoop_done_untouched heq
      obtain ⟨hpkt, -, hdf, hcnt, hcur, hnext, -, -⟩ := hu
      split at hinit
      · simp [Prod.ext_iff] at hinit
      · by_cases ha : env.arrayAllocOk
        · simp only [ha, if_true] at hinit
          split at hinit
          · rename_i hr
            split at hinit <;>
              (simp only [Prod.mk.injEq, true_and] at hinit
               obtain ⟨hst, -⟩ := hinit
               subst hst
               refine ⟨by simpa [initialStatics] using hcur,
                 by simpa [initialStatics] using hnext, by simp,
                 by simpa [initialStatics] using hpkt, ?_⟩
               simp [allocFrames_all_ok hr])
          · simp [Prod.ext_iff] at hinit
        · simp [ha, Prod.ext_iff] at hinit
  · simp [hp, Prod.ext_iff] at hinit

theorem gf_ok_state (st : FfmpegState) (nf : Bool) (f : Int) (t : Bool) :
    (ffmpeg_get_frame st nf (RecvResult.ok f) t).state =
      { st with currentFrame := st.nextFrame,
                nextFrame := (st.nextFrame + 1) % st.decFramesCnt } := by
  unfold ffmpeg_get_frame
  repeat' split
  all_goals simp_all

theorem gf_again_state (st : FfmpegState) (nf : Bool) (t : Bool) :
    (ffmpeg_get_frame st nf RecvResult.again t).state = st := rfl

theorem gf_err_state (st : FfmpegState) (nf : Bool) (c : Int) (t : Bool) :
    (ffmpeg_get_frame st nf (RecvResult.err c) t).state = st := rfl

theorem decode_state (st : FfmpegState) (n e : Int) :
    (ffmpeg_decode st n e).2 = { st with pktSize := n } := rfl

theorem engineUntouched_refl (st : FfmpegState) : EngineUntouched st st := by
  simp [EngineUntouched]

theorem engineUntouched_trans {a b c : FfmpegState}
    (h1 : EngineUntouched a b) (h2 : EngineUntouched b c) : EngineUntouched a c := by
  obtain ⟨x1, x2, x3, x4, x5, x6, x7, x8, x9⟩ := h1
  obtain ⟨y1, y2, y3, y4, y5, y6, y7, y8, y9⟩ := h2
  exact ⟨y1.trans x1, y2.trans x2, y3.trans x3, y4.trans x4, y5.trans x5,
    y6.trans x6, y7.trans x7, y8.trans x8, y9.trans x9⟩

theorem gf_engineUntouched (st : FfmpegState) (nf : Bool) (r : RecvResult) (t : Bool) :
    EngineUntouched st (ffmpeg_get_frame st nf r t).state := by
  cases r with
  | ok f => rw [gf_ok_state]; simp [EngineUntouched]
  | again => rw [gf_again_state]; exact engineUntouched_refl st
  | err c => rw [gf_err_state]; exact engineUntouched_refl st

theorem decode_engineUntouched (st : FfmpegState) (n e : Int) :
    EngineUntouched st (ffmpeg_decode st n e).2 := by
  rw [decode_state]; simp [EngineUntouched]

theorem runOps_engineUntouched : ∀ (ops : List Op) (st : FfmpegState),
    EngineUntouched st (runOps st ops) := by
  intro ops
  induction ops with
  | nil => intro st; exact engineUntouched_refl st
  | cons op ops ih =>
    intro st
    cases op with
    | dec n e => exact engineUntouched_trans (decode_engineUntouched st n e) (ih _)
    | gf nf r t => exact engineUntouched_trans (gf_engineUntouched st nf r t) (ih _)

theorem runOps_ring_bounds : ∀ (ops : List Op) (st : FfmpegState),
    st.currentFrame < st.decFramesCnt → st.nextFrame < st.decFramesCnt →
    (runOps st ops).currentFrame < (runOps st ops).decFramesCnt ∧
      (runOps st ops).nextFrame < (runOps st ops).decFramesCnt := by
  intro ops
  induction ops with
  | nil => intro st h1 h2; exact ⟨h1, h2⟩
  | cons op ops ih =>
    intro st h1 h2
    cases op with
    | dec n e => exact ih _ h1 h2
    | gf nf r t =>
      cases r with
      | ok f =>
        refine ih _ ?_ ?_ <;> rw [gf_ok_state]
        · exact h2
        · exact Nat.mod_lt _ (Nat.pos_of_ne_zero (by omega))
      | again => exact ih _ h1 h2
      | err c => exact ih _ h1 h2

/-- C10: after a successful `ffmpeg_init` with `buffer_count ≥ 1`, for
every interleaving of `ffmpeg_decode` and `ffmpeg_get_frame` calls both
ring indices stay in `[0, dec_frames_cnt)`; `ffmpeg_decode` never changes
them; an `ffmpeg_get_frame` in which the decoder yields no frame (EAGAIN
or another receive error) leaves the whole state unchanged; and a
successful receive advances them so that
`next_frame = (current_frame + 1) % dec_frames_cnt` holds afterwards. -/
theorem C10_ring_indices_invariant {env : Env} {vf : VideoFormat} {w h : Int}
    {perf : PerfLvl} {N : Nat} {tc : Int} {st : FfmpegState} {ev : List Event}
    (hinit : ffmpeg_init env vf w h perf N tc = (0, st, ev)) (hN : 1 ≤ N) :
    ∀ ops : List Op,
      ((runOps st ops).currentFrame < (runOps st ops).decFramesCnt ∧
       (runOps st ops).nextFrame < (runOps st ops).decFramesCnt) ∧
      (∀ n e : Int,
        (ffmpeg_decode (runOps st ops) n e).2.currentFrame = (runOps st ops).currentFrame ∧
        (ffmpeg_decode (runOps st ops) n e).2.nextFrame = (runOps st ops).nextFrame) ∧
      (∀ nf t : Bool,
        (ffmpeg_get_frame (runOps st ops) nf RecvResult.again t).state = runOps st ops) ∧
      (∀ (nf : Bool) (c : Int) (t : Bool),
        (ffmpeg_get_frame (runOps st ops) nf (RecvResult.err c) t).state = runOps st ops) ∧
      (∀ (nf : Bool) (f : Int) (t : Bool),
        (ffmpeg_get_frame (runOps st ops) nf (RecvResult.ok f) t).state.nextFrame =
          ((ffmpeg_get_frame (runOps st ops) nf (RecvResult.ok f) t).state.currentFrame + 1) %
            (ffmpeg_get_frame (runOps st ops) nf (RecvResult.ok f) t).state.decFramesCnt) := by
  obtain ⟨hcur, hnext, hcnt, -, -⟩ := init_ok_fields hinit
  intro ops
  refine ⟨runOps_ring_bounds ops st (by omega) (by omega), ?_, ?_, ?_, ?_⟩
  · intro n e; rw [decode_state]; exact ⟨rfl, rfl⟩
  · intro nf t; exact gf_again_state _ nf t
  · intro nf c t; exact gf_err_state _ nf c t
  · intro nf f t; rw [gf_ok_state]

/-- C10 witness: a concrete successful init (software H.264 build,
`buffer_count = 2`) followed by a concrete interleaving of one decode and
two receive calls. -/
theorem C10_ring_indices_invariant_witness :
    (runOps (ffmpeg_init envFirstOpens fmtH264 1920 1080 perfSW 2 4).2.1
        [Op.dec 100 0, Op.gf false (RecvResult.ok 5) true,
         Op.gf false RecvResult.again true]).currentFrame <
      (runOps (ffmpeg_init envFirstOpens fmtH264 1920 1080 perfSW 2 4).2.1
        [Op.dec 100 0, Op.gf false (RecvResult.ok 5) true,
         Op.gf false RecvResult.again true]).decFramesCnt ∧
    (runOps (ffmpeg_init envFirstOpens fmtH264 1920 1080 perfSW 2 4).2.1
        [Op.dec 100 0, Op.gf false (RecvResult.ok 5) true,
         Op.gf false RecvResult.again true]).nextFrame <
      (runOps (ffmpeg_init envFirstOpens fmtH264 1920 1080 perfSW 2 4).2.1
        [Op.dec 100 0, Op.gf false (RecvResult.ok 5) true,
         Op.gf false RecvResult.again true]).decFramesCnt :=
  (@C10_ring_indices_invariant envFirstOpens fmtH264 1920 1080 perfSW 2 4
    (ffmpeg_init envFirstOpens fmtH264 1920 1080 perfSW 2 4).2.1
    (ffmpeg_init envFirstOpens fmtH264 1920 1080 perfSW 2 4).2.2
    (by rfl) (by decide)
    [Op.dec 100 0, Op.gf false (RecvResult.ok 5) true,
     Op.gf false RecvResult.again true]).1

theorem cycleState_fields {f : Int} {st0 : FfmpegState} {N : Nat}
    (hcnt : st0.decFramesCnt = N) (hnext : st0.nextFrame = 0) :
    ∀ k : Nat,
      (cycleState f st0 k).nextFrame = k % N ∧
      (cycleState f st0 k).decFramesCnt = N ∧
      (cycleState f st0 k).ffmpegDecoder = st0.ffmpegDecoder ∧
      (cycleState f st0 k).hwPixFmt = st0.hwPixFmt := by
  intro k
  induction k with
  | zero => exact ⟨by simp [cycleState, hnext, Nat.zero_mod], hcnt, rfl, rfl⟩
  | succ m ih =>
    obtain ⟨h1, h2, h3, h4⟩ := ih
    refine ⟨?_, ?_, ?_, ?_⟩ <;>
      simp only [cycleState, gf_ok_state]
    · rw [h1, h2, Nat.mod_add_mod]
    · exact h2
    · exact h3
    · exact h4

/-- C4: starting from the freshly initialized ring (`next_frame = 0`,
`dec_frames_cnt = N ≥ 1`, software decoder, frames of a format different
from `hw_pix_fmt`), the frame returned by successful cycle `k+1` is the
ring slot `dec_frames[k % N]`; hence cycle `N+1` returns the same ring
slot (index 0, the same buffer) as cycle 1. -/
theorem C4_ring_round_robin {f : Int} {st0 : FfmpegState} {N : Nat}
    (hcnt : st0.decFramesCnt = N) (hN : 1 ≤ N) (hnext : st0.nextFrame = 0)
    (hsw : st0.ffmpegDecoder = DecoderKind.SOFTWARE) (hf : f ≠ st0.hwPixFmt) :
    (∀ k : Nat,
      (ffmpeg_get_frame (cycleState f st0 k) false (RecvResult.ok f) true).frame =
        some (FrameRef.ring (k % N))) ∧
    (ffmpeg_get_frame (cycleState f st0 N) false (RecvResult.ok f) true).frame =
      (ffmpeg_get_frame (cycleState f st0 0) false (RecvResult.ok f) true).frame := by
  have hfr : ∀ k : Nat,
      (ffmpeg_get_frame (cycleState f st0 k) false (RecvResult.ok f) true).frame =
        some (FrameRef.ring (k % N)) := by
    intro k
    obtain ⟨h1, h2, h3, h4⟩ := cycleState_fields (f := f) hcnt hnext k
    simp only [ffmpeg_get_frame, h3, h4, h1, hsw]
    simp [hf]
  refine ⟨hfr, ?_⟩
  rw [hfr N, hfr 0, Nat.mod_self, Nat.zero_mod]

/-- C4 witness: the round-robin property evaluated on a concrete ring of
two slots; cycle 3 returns the same slot (index 0) as cycle 1. -/
theorem C4_ring_round_robin_witness :
    (ffmpeg_get_frame (cycleState 5 (ffmpeg_init envFirstOpens fmtH264 1920 1080 perfSW 2 4).2.1 2)
        false (RecvResult.ok 5) true).frame =
      (ffmpeg_get_frame (cycleState 5 (ffmpeg_init envFirstOpens fmtH264 1920 1080 perfSW 2 4).2.1 0)
        false (RecvResult.ok 5) true).frame :=
  (C4_ring_round_robin (f := 5) (N := 2) (by decide) (by decide) (by decide)
    (by decide) (by decide)).2

/-- C9: when the CPU-accessible path is taken and the decoded frame is
hardware-resident (its format equals `hw_pix_fmt`) but the
`av_hwframe_transfer_data` call fails, `ffmpeg_get_frame` reports the
failed transfer attempt and returns NULL (the frame is dropped); the ring
indices still advance and nothing else in the state changes, the ring
bounds are preserved, and a subsequent decode/receive cycle proceeds
normally, returning the next ring slot. -/
theorem C9_transfer_failure_recoverable {st : FfmpegState} {nf : Bool} {f : Int}
    (hcpu : st.ffmpegDecoder = DecoderKind.SOFTWARE ∨ nf = true)
    (hf : f = st.hwPixFmt) :
    (ffmpeg_get_frame st nf (RecvResult.ok f) false).frame = none ∧
    (ffmpeg_get_frame st nf (RecvResult.ok f) false).transferAttempted = true ∧
    (ffmpeg_get_frame st nf (RecvResult.ok f) false).state =
      { st with currentFrame := st.nextFrame,
                nextFrame := (st.nextFrame + 1) % st.decFramesCnt } ∧
    (st.nextFrame < st.decFramesCnt →
      (ffmpeg_get_frame st nf (RecvResult.ok f) false).state.currentFrame <
        (ffmpeg_get_frame st nf (RecvResult.ok f) false).state.decFramesCnt ∧
      (ffmpeg_get_frame st nf (RecvResult.ok f) false).state.nextFrame <
        (ffmpeg_get_frame st nf (RecvResult.ok f) false).state.decFramesCnt) ∧
    (∀ (n e f2 : Int), f2 ≠ st.hwPixFmt →
      (ffmpeg_get_frame
          (ffmpeg_decode (ffmpeg_get_frame st nf (RecvResult.ok f) false).state n e).2
          nf (RecvResult.ok f2) true).frame =
        some (FrameRef.ring ((st.nextFrame + 1) % st.decFramesCnt))) := by
  have hrec : st.ffmpegDecoder = DecoderKind.SOFTWARE ∨ nf = true := hcpu
  refine ⟨?_, ?_, gf_ok_state st nf f false, ?_, ?_⟩
  · simp only [ffmpeg_get_frame]
    rcases hcpu with hs | hn
    · simp [hs, hf]
    · simp [hn, hf]
  · simp only [ffmpeg_get_frame]
    rcases hcpu with hs | hn
    · simp [hs, hf]
    · simp [hn, hf]
  · intro hb
    rw [gf_ok_state]
    exact ⟨hb, Nat.mod_lt _ (Nat.pos_of_ne_zero (by omega))⟩
  · intro n e f2 hf2
    rw [decode_state, gf_ok_state]
    simp only [ffmpeg_get_frame]
    rcases hrec with hs | hn
    · simp [hs, hf2]
    · simp [hn, hf2]

/-- C9 witness: the concrete VAAPI state (hardware format 100), a frame of
format 100 whose transfer fails, followed by a decode and a receive of a
CPU-format frame. -/
theorem C9_transfer_failure_recoverable_witness :
    (ffmpeg_get_frame (ffmpeg_init envVaapi fmtH264 1920 1080 perfHW 2 4).2.1
        true (RecvResult.ok 100) false).frame = none ∧
    (ffmpeg_get_frame (ffmpeg_init envVaapi fmtH264 1920 1080 perfHW 2 4).2.1
        true (RecvResult.ok 100) false).transferAttempted = true :=
  ⟨(C9_transfer_failure_recoverable (Or.inr rfl) (by decide)).1,
   (C9_transfer_failure_recoverable (Or.inr rfl) (by decide)).2.1⟩

theorem hwaccelLoop_all_fail {createOk : Int → Bool} :
    ∀ (configs : List HWConfig) (pf : Int) (dev : Bool) (ctx : Ctx),
      (∀ c ∈ configs, c.deviceCtxMethod = true → createOk c.deviceType = false) →
      (hwaccelLoop createOk configs AV_HWDEVICE_TYPE_NONE pf dev ctx).1 =
        AV_HWDEVICE_TYPE_NONE := by
  intro configs
  induction configs with
  | nil => intro pf dev ctx _; rfl
  | cons c rest ih =>
    intro pf dev ctx hall
    unfold hwaccelLoop
    by_cases hm : c.deviceCtxMethod
    · have hco := hall c (by simp) hm
      simp only [hm, hco, if_true, Bool.false_eq_true, reduceIte]
      exact ih _ _ _ (fun d hd hmd => hall d (by simp [hd]) hmd)
    · simp only [hm, Bool.false_eq_true, reduceIte]
      exact ih _ _ _ (fun d hd hmd => hall d (by simp [hd]) hmd)

/-- C8: hardware negotiation is never fatal to a candidate. First, a
configuration with the device-context method whose device creation fails
clears the recorded pixel format and device type and the loop continues
with the remaining configurations. Second, if every advertised
configuration fails to create (or lacks the method), `hwaccel_setup`
returns false. Third, in the candidate body of `ffmpeg_init`, a candidate
whose configurations all fail negotiation is not abandoned: its context
pixel format falls back to `AV_PIX_FMT_YUV420P` and `avcodec_open2` is
still attempted on it, as the trace records. -/
theorem C8_hwaccel_failure_not_fatal :
    (∀ (createOk : Int → Bool) (c : HWConfig) (rest : List HWConfig)
       (ty pf : Int) (dev : Bool) (ctx : Ctx),
      c.deviceCtxMethod = true → createOk c.deviceType = false →
      hwaccelLoop createOk (c :: rest) ty pf dev ctx =
        hwaccelLoop createOk rest AV_HWDEVICE_TYPE_NONE AV_PIX_FMT_NONE false ctx) ∧
    (∀ (createOk : Int → Bool) (configs : List HWConfig) (pf0 : Int)
       (dev0 : Bool) (ctx : Ctx),
      (∀ c ∈ configs, c.deviceCtxMethod = true → createOk c.deviceType = false) →
      (hwaccel_setup createOk configs pf0 dev0 ctx).ok = false) ∧
    (∀ (env : Env) (slice : Bool) (tc w h : Int) (name : String)
       (st : FfmpegState) (ev : List Event),
      env.ctxAllocOk = true → env.hwConfigs name ≠ [] →
      (∀ c ∈ env.hwConfigs name, c.deviceCtxMethod = true →
        env.createOk c.deviceType = false) →
      ∃ st' : FfmpegState,
        tryCandidate env slice tc w h name st ev =
          LoopRes.done st'
            (ev ++ [Event.tried name,
                    Event.opened name AV_PIX_FMT_YUV420P (env.openOk name)])) := by
  refine ⟨?_, ?_, ?_⟩
  · intro createOk c rest ty pf dev ctx hm hco
    simp only [hwaccelLoop]
    simp [hm, hco]
  · intro createOk configs pf0 dev0 ctx hall
    unfold hwaccel_setup
    simp [hwaccelLoop_all_fail configs pf0 dev0 ctx hall]
  · intro env slice tc w h name st ev hctx hne hall
    have hsetup : ∀ ctx0 : Ctx,
        (hwaccel_setup env.createOk (env.hwConfigs name) st.hwPixFmt st.hwDeviceCtx
          ctx0).ok = false := by
      intro ctx0
      unfold hwaccel_setup
      simp [hwaccelLoop_all_fail (env.hwConfigs name) st.hwPixFmt st.hwDeviceCtx ctx0 hall]
    have hemp : (env.hwConfigs name).isEmpty = false := by
      cases hh : env.hwConfigs name with
      | nil => exact absurd hh hne
      | cons a l => rfl
    unfold tryCandidate
    by_cases ho : env.openOk name <;>
      simp [hctx, hemp, hsetup, ho, AV_PIX_FMT_YUV420P]

/-- C8 witness: a decoder with one device-context configuration whose
creation fails; the loop equation, the failed setup and the non-abandoned
candidate evaluated concretely. -/
theorem C8_hwaccel_failure_not_fatal_witness :
    (hwaccel_setup (fun _ => false) [{ deviceCtxMethod := true, deviceType := 1, pixFmt := 100 }]
      0 false allocCtx).ok = false :=
  C8_hwaccel_failure_not_fatal.2.1 (fun _ => false)
    [{ deviceCtxMethod := true, deviceType := 1, pixFmt := 100 }] 0 false allocCtx
    (by intro c hc _; rfl)

theorem set_getD_false (slots : List Bool) (i : Nat) :
    (slots.set i false).getD i false = false := by
  rw [List.getD_eq_getElem?_getD, List.getElem?_set_self']
  cases slots[i]? <;> rfl

theorem set_getD_ne (slots : List Bool) {i j : Nat} (h : j ≠ i) :
    (slots.set j false).getD i false = slots.getD i false := by
  rw [List.getD_eq_getElem?_getD, List.getD_eq_getElem?_getD, List.getElem?_set_ne h]

theorem freeSlotsAux_getD_stable {i : Nat} :
    ∀ (is : List Nat) (slots : List Bool), slots.getD i false = false →
      (freeSlotsAux slots is).1.getD i false = false := by
  intro is
  induction is with
  | nil => intro slots hsl; exact hsl
  | cons j js ih =>
    intro slots hsl
    unfold freeSlotsAux
    by_cases hj : slots.getD j false
    · simp only [hj, if_true, reduceIte]
      apply ih
      by_cases hij : i = j
      · subst hij; exact set_getD_false slots i
      · rw [set_getD_ne slots (fun hh => hij hh.symm)]; exact hsl
    · simp only [hj, Bool.false_eq_true, reduceIte]
      exact ih slots hsl

theorem freeSlotsAux_getD_mem {i : Nat} :
    ∀ (is : List Nat) (slots : List Bool), i ∈ is →
      (freeSlotsAux slots is).1.getD i false = false := by
  intro is
  induction is with
  | nil => intro slots hmem; cases hmem
  | cons j js ih =>
    intro slots hmem
    unfold freeSlotsAux
    by_cases hij : i = j
    · subst hij
      by_cases hj : slots.getD i false
      · simp only [hj, if_true, reduceIte]
        exact freeSlotsAux_getD_stable js _ (set_getD_false slots i)
      · simp only [hj, Bool.false_eq_true, reduceIte]
        exact freeSlotsAux_getD_stable js slots (by simpa using hj)
    · have hmem' : i ∈ js := by
        rcases List.mem_cons.mp hmem with hh | hh
        · exact absurd hh hij
        · exact hh
      by_cases hj : slots.getD j false <;>
        simp only [hj, if_true, Bool.false_eq_true, reduceIte] <;>
        exact ih _ hmem'

theorem freeSlotsAux_events_sublist :
    ∀ (is : List Nat) (slots : List Bool),
      List.Sublist (freeSlotsAux slots is).2 (is.map FreeEvent.slot) := by
  intro is
  induction is with
  | nil => intro slots; simp [freeSlotsAux]
  | cons j js ih =>
    intro slots
    unfold freeSlotsAux
    by_cases hj : slots.getD j false
    · simp only [hj, if_true, reduceIte, List.map_cons]
      exact List.Sublist.cons₂ _ (ih _)
    · simp only [hj, Bool.false_eq_true, reduceIte, List.map_cons]
      exact List.Sublist.cons _ (ih slots)

theorem freeSlotsAux_events_slots {is : List Nat} {slots : List Bool} :
    ∀ e ∈ (freeSlotsAux slots is).2, ∃ i, e = FreeEvent.slot i := by
  intro e he
  have hmem := (freeSlotsAux_events_sublist is slots).subset he
  obtain ⟨i, -, hi⟩ := List.mem_map.mp hmem
  exact ⟨i, hi.symm⟩

theorem freeSlotsAux_events_nodup (slots : List Bool) (cnt : Nat) :
    ((freeSlotsAux slots (List.range cnt)).2).Nodup :=
  ((List.nodup_range cnt).map (fun a b hab => by cases hab; rfl)).sublist
    (freeSlotsAux_events_sublist (List.range cnt) slots)

theorem const_not_mem_freeSlots (slots : List Bool) (is : List Nat) :
    FreeEvent.swFrame ∉ (freeSlotsAux slots is).2 ∧
    FreeEvent.hwDev ∉ (freeSlotsAux slots is).2 ∧
    FreeEvent.pkt ∉ (freeSlotsAux slots is).2 ∧
    FreeEvent.ctx ∉ (freeSlotsAux slots is).2 := by
  refine ⟨?_, ?_, ?_, ?_⟩ <;>
    (intro hmem
     obtain ⟨i, hi⟩ := freeSlotsAux_events_slots _ hmem
     cases hi)

theorem ffmpeg_destroy_clears (st : FfmpegState) :
    (ffmpeg_destroy st).1.pkt = false ∧ (ffmpeg_destroy st).1.decoderCtx = none ∧
    (ffmpeg_destroy st).1.hwDeviceCtx = false ∧ (ffmpeg_destroy st).1.swFrame = false := by
  cases hdf : st.decFrames <;> simp [ffmpeg_destroy, hdf]

theorem ffmpeg_destroy_decFrames {st : FfmpegState} {sl : List Bool}
    (h : st.decFrames = some sl) :
    (ffmpeg_destroy st).1.decFrames =
      some (freeSlotsAux sl (List.range st.decFramesCnt)).1 := by
  simp [ffmpeg_destroy, h]

theorem ffmpeg_destroy_events_nodup (st : FfmpegState) :
    ((ffmpeg_destroy st).2).Nodup := by
  cases hdf : st.decFrames with
  | none =>
    by_cases h1 : st.swFrame <;> by_cases h2 : st.hwDeviceCtx <;>
      by_cases h3 : st.pkt <;> by_cases h4 : st.decoderCtx.isSome <;>
      simp [ffmpeg_destroy, hdf, h1, h2, h3, h4]
  | some slots =>
    have hnd := freeSlotsAux_events_nodup slots st.decFramesCnt
    have hc := const_not_mem_freeSlots slots (List.range st.decFramesCnt)
    by_cases h1 : st.swFrame <;> by_cases h2 : st.hwDeviceCtx <;>
      by_cases h3 : st.pkt <;> by_cases h4 : st.decoderCtx.isSome <;>
      simp [ffmpeg_destroy, hdf, h1, h2, h3, h4, hnd,
        hc.1, hc.2.1, hc.2.2.1, hc.2.2.2]

/-- C6: counterexample. After a successful init (software H.264 build,
two ring slots) and zero engine calls, `ffmpeg_destroy` frees the packet,
context and both slot frames but leaves the malloc'd `dec_frames` slot
array allocated (`some` rather than `none` — there is no `free(dec_frames)`
in the function), so "no resource left allocated" fails. -/
theorem C6_slot_array_not_freed :
    (ffmpeg_destroy (ffmpeg_init envFirstOpens fmtH264 1920 1080 perfSW 2 4).2.1).1.decFrames =
      some [false, false] ∧
    (ffmpeg_destroy (ffmpeg_init envFirstOpens fmtH264 1920 1080 perfSW 2 4).2.1).1.decFrames ≠
      none := by
  refine ⟨?_, ?_⟩ <;> decide

/-- C6 (amended): after a successful init and any interleaving of
`ffmpeg_decode` / `ffmpeg_get_frame` calls, `ffmpeg_destroy` releases the
packet, the decoder context, the hardware device reference, the transfer
frame and every ring slot, each at most once (the free-event list has no
duplicates, so no double-free), but it does NOT free the `dec_frames`
slot array itself, which remains allocated. -/
theorem C6_destroy_releases_except_array {env : Env} {vf : VideoFormat}
    {w h : Int} {perf : PerfLvl} {N : Nat} {tc : Int} {st : FfmpegState}
    {ev : List Event}
    (hinit : ffmpeg_init env vf w h perf N tc = (0, st, ev)) :
    ∀ ops : List Op,
      (ffmpeg_destroy (runOps st ops)).1.pkt = false ∧
      (ffmpeg_destroy (runOps st ops)).1.decoderCtx = none ∧
      (ffmpeg_destroy (runOps st ops)).1.hwDeviceCtx = false ∧
      (ffmpeg_destroy (runOps st ops)).1.swFrame = false ∧
      (∃ l : List Bool, (ffmpeg_destroy (runOps st ops)).1.decFrames = some l ∧
        ∀ i, i < N → l.getD i false = false) ∧
      (ffmpeg_destroy (runOps st ops)).1.decFrames ≠ none ∧
      ((ffmpeg_destroy (runOps st ops)).2).Nodup := by
  obtain ⟨-, -, hcnt, -, hdf⟩ := init_ok_fields hinit
  intro ops
  obtain ⟨-, -, -, hdf', -, -, -, hcnt', -⟩ := runOps_engineUntouched ops st
  have hdfr : (runOps st ops).decFrames = some (List.replicate N true) := hdf' ▸ hdf
  have hcr : (runOps st ops).decFramesCnt = N := hcnt' ▸ hcnt
  obtain ⟨d1, d2, d3, d4⟩ := ffmpeg_destroy_clears (runOps st ops)
  refine ⟨d1, d2, d3, d4, ?_, ?_, ffmpeg_destroy_events_nodup _⟩
  · refine ⟨(freeSlotsAux (List.replicate N true) (List.range (runOps st ops).decFramesCnt)).1,
      ffmpeg_destroy_decFrames hdfr, ?_⟩
    intro i hi
    exact freeSlotsAux_getD_mem _ _ (by rw [hcr]; exact List.mem_range.mpr hi)
  · rw [ffmpeg_destroy_decFrames hdfr]
    exact Option.some_ne_none _

/-- C6 (amended) witness: the amended statement applied to the concrete
software H.264 init with one decode and one receive call. -/
theorem C6_destroy_releases_except_array_witness :
    (ffmpeg_destroy (runOps (ffmpeg_init envFirstOpens fmtH264 1920 1080 perfSW 2 4).2.1
        [Op.dec 7 0, Op.gf false (RecvResult.ok 5) true])).1.pkt = false ∧
    (ffmpeg_destroy (runOps (ffmpeg_init envFirstOpens fmtH264 1920 1080 perfSW 2 4).2.1
        [Op.dec 7 0, Op.gf false (RecvResult.ok 5) true])).1.decFrames ≠ none :=
  ⟨(@C6_destroy_releases_except_array envFirstOpens fmtH264 1920 1080 perfSW 2 4
      (ffmpeg_init envFirstOpens fmtH264 1920 1080 perfSW 2 4).2.1
      (ffmpeg_init envFirstOpens fmtH264 1920 1080 perfSW 2 4).2.2 (by rfl)
      [Op.dec 7 0, Op.gf false (RecvResult.ok 5) true]).1,
   (@C6_destroy_releases_except_array envFirstOpens fmtH264 1920 1080 perfSW 2 4
      (ffmpeg_init envFirstOpens fmtH264 1920 1080 perfSW 2 4).2.1
      (ffmpeg_init envFirstOpens fmtH264 1920 1080 perfSW 2 4).2.2 (by rfl)
      [Op.dec 7 0, Op.gf false (RecvResult.ok 5) true]).2.2.2.2.2.1⟩

theorem allocFrames_fails_at (i0 : Nat) :
    ∀ (fuel i : Nat), i ≤ i0 → i0 < i + fuel →
      allocFrames (fun j => decide (j < i0)) i fuel =
        (List.replicate (i0 - i) true ++ [false], false) := by
  intro fuel
  induction fuel with
  | zero => intro i h1 h2; omega
  | succ m ih =>
    intro i h1 h2
    unfold allocFrames
    by_cases hi : i < i0
    · simp only [hi, decide_eq_true_eq, if_true, reduceIte]
      rw [ih (i + 1) (by omega) (by omega)]
      have hrep : i0 - i = (i0 - (i + 1)) + 1 := by omega
      rw [hrep, List.replicate_succ]
      rfl
    · have hieq : i = i0 := by omega
      subst hieq
      simp

theorem init_slotFails_eq (i0 N : Nat) :
    ffmpeg_init (envSlotFails i0) fmtH264 1920 1080 perfSW N 4 =
      (if (allocFrames (fun j => decide (j < i0)) 0 N).2 then
        (0,
         { pkt := true, pktSize := 0, decoder := some "h264"
           decoderCtx := some
             { lowDelay := true, outputCorrupt := true, showAll := true, errExplode := true
               threadSlice := false, threadCount := 1, width := 1920, height := 1080
               pixFmt := 0, getFormatSet := false, hwDeviceRef := false, opened := true }
           decFrames := some (allocFrames (fun j => decide (j < i0)) 0 N).1
           hwDeviceCtx := false, hwPixFmt := 0, swFrame := false
           decFramesCnt := N, currentFrame := 0, nextFrame := 0
           ffmpegDecoder := DecoderKind.SOFTWARE },
         [Event.tried "h264", Event.opened "h264" 0 true])
      else
        (-1,
         { pkt := true, pktSize := 0, decoder := some "h264"
           decoderCtx := some
             { lowDelay := true, outputCorrupt := true, showAll := true, errExplode := true
               threadSlice := false, threadCount := 1, width := 1920, height := 1080
               pixFmt := 0, getFormatSet := false, hwDeviceRef := false, opened := true }
           decFrames := some (allocFrames (fun j => decide (j < i0)) 0 N).1
           hwDeviceCtx := false, hwPixFmt := 0, swFrame := false
           decFramesCnt := N, currentFrame := 0, nextFrame := 0
           ffmpegDecoder := DecoderKind.SOFTWARE },
         [Event.tried "h264", Event.opened "h264" 0 true])) := rfl

/-- C5 (amended): when the allocation of ring slot `i0 < N` fails while
building a ring of `N` slots, `ffmpeg_init` returns -1 immediately and
releases nothing: the `i0` already-allocated frame slots, the slot array,
the packet and the opened decoder context all remain allocated. -/
theorem C5_amended_partial_ring_left_allocated {i0 N : Nat} (hi0 : i0 < N) :
    (ffmpeg_init (envSlotFails i0) fmtH264 1920 1080 perfSW N 4).1 = -1 ∧
    (ffmpeg_init (envSlotFails i0) fmtH264 1920 1080 perfSW N 4).2.1.decFrames =
      some (List.replicate i0 true ++ [false]) ∧
    (ffmpeg_init (envSlotFails i0) fmtH264 1920 1080 perfSW N 4).2.1.pkt = true ∧
    (ffmpeg_init (envSlotFails i0) fmtH264 1920 1080 perfSW N 4).2.1.decoderCtx ≠ none := by
  have hAF := allocFrames_fails_at i0 N 0 (by omega) (by omega)
  rw [init_slotFails_eq, hAF]
  simp

/-- C5 (amended) witness: slot 1 of a 2-slot ring fails to allocate. -/
theorem C5_amended_partial_ring_left_allocated_witness :
    (ffmpeg_init (envSlotFails 1) fmtH264 1920 1080 perfSW 2 4).1 = -1 ∧
    (ffmpeg_init (envSlotFails 1) fmtH264 1920 1080 perfSW 2 4).2.1.decFrames =
      some (List.replicate 1 true ++ [false]) :=
  ⟨(C5_amended_partial_ring_left_allocated (by decide)).1,
   (C5_amended_partial_ring_left_allocated (by decide)).2.1⟩

/-- C1: the claim fails on the code. Under software preference for H.264,
with `h264_nvv4l2` compiled in and opening successfully and the generic
`h264` also compiled in, the selection cascade does NOT stop at the first
successfully opened candidate: the event trace shows that after
`h264_nvv4l2` opens at try 0, the loop still tries and opens `h264` at
try 4 (the C loop has no `break` after a successful `avcodec_open2`,
so the earlier opened context is overwritten and the last candidate
wins). -/
theorem C1_cascade_does_not_stop_at_first_success :
    (ffmpeg_init envFirstOpens fmtH264 1920 1080 perfSW 2 4).2.2 =
      [Event.tried "h264_nvv4l2", Event.opened "h264_nvv4l2" AV_PIX_FMT_YUV420P true,
       Event.tried "h264", Event.opened "h264" AV_PIX_FMT_YUV420P true] ∧
    (ffmpeg_init envFirstOpens fmtH264 1920 1080 perfSW 2 4).2.1.decoder = some "h264" := by
  constructor <;> rfl

/-- C2: the claim fails on the code. With only the generic `h264` decoder
compiled in and every `avcodec_open2` failing, `ffmpeg_init` returns 0
(success) even though `decoder_ctx` is NULL — the final check tests
`decoder`, which the by-name lookup left non-NULL, instead of
`decoder_ctx`. Moreover, on the path that does return -1 (no candidate
compiled in at all), the allocated packet is not freed. -/
theorem C2_init_success_without_open_decoder :
    ((ffmpeg_init envAllOpensFail fmtH264 1920 1080 perfSW 2 4).1 = 0 ∧
     (ffmpeg_init envAllOpensFail fmtH264 1920 1080 perfSW 2 4).2.1.decoderCtx = none) ∧
    ((ffmpeg_init envNothingFound fmtH264 1920 1080 perfSW 2 4).1 = -1 ∧
     (ffmpeg_init envNothingFound fmtH264 1920 1080 perfSW 2 4).2.1.pkt = true) := by
  refine ⟨⟨?_, ?_⟩, ?_, ?_⟩ <;> rfl

/-- C3: counterexample. After a successful VAAPI init (hardware decoder
active, negotiated hardware pixel format 100), a `ffmpeg_get_frame` call
with `native_frame = false` in which the decoder yields a (hardware
resident) frame returns NULL, not the ring-slot frame the claim promises:
the zero-copy return path does not exist in the code — a successful
receive on the hardware path with `native_frame` false falls through to
`return NULL`, dropping the frame (the ring indices do advance). -/
theorem C3_hw_native_false_returns_null :
    (ffmpeg_init envVaapi fmtH264 1920 1080 perfHW 2 4).2.1.ffmpegDecoder =
      DecoderKind.VAAPI ∧
    (ffmpeg_init envVaapi fmtH264 1920 1080 perfHW 2 4).2.1.hwPixFmt = 100 ∧
    (ffmpeg_get_frame (ffmpeg_init envVaapi fmtH264 1920 1080 perfHW 2 4).2.1
        false (RecvResult.ok 100) true).frame = none ∧
    (ffmpeg_get_frame (ffmpeg_init envVaapi fmtH264 1920 1080 perfHW 2 4).2.1
        false (RecvResult.ok 100) true).state.nextFrame = 1 := by
  refine ⟨?_, ?_, ?_, ?_⟩ <;> rfl

/-- C3 (amended): when the active decoder is hardware-accelerated (not
`SOFTWARE`) and `native_frame` is false, `ffmpeg_get_frame` always returns
NULL — no frame is handed out, with or without a decoded frame — and a
successful receive still advances the ring indices. -/
theorem C3_amended_hw_path_yields_none (st : FfmpegState) (recv : RecvResult)
    (transferOk : Bool) (h : st.ffmpegDecoder = DecoderKind.VAAPI) :
    (ffmpeg_get_frame st false recv transferOk).frame = none ∧
    (∀ f, recv = RecvResult.ok f →
      (ffmpeg_get_frame st false recv transferOk).state.currentFrame = st.nextFrame ∧
      (ffmpeg_get_frame st false recv transferOk).state.nextFrame =
        (st.nextFrame + 1) % st.decFramesCnt) := by
  cases recv <;> simp [ffmpeg_get_frame, h]

/-- C3 (amended) witness: the amended statement evaluated on the concrete
VAAPI state of the counterexample. -/
theorem C3_amended_hw_path_yields_none_witness :
    (ffmpeg_get_frame (ffmpeg_init envVaapi fmtH264 1920 1080 perfHW 2 4).2.1
        false (RecvResult.ok 100) true).frame = none ∧
    (∀ f, RecvResult.ok (100 : Int) = RecvResult.ok f →
      (ffmpeg_get_frame (ffmpeg_init envVaapi fmtH264 1920 1080 perfHW 2 4).2.1
          false (RecvResult.ok 100) true).state.currentFrame =
        (ffmpeg_init envVaapi fmtH264 1920 1080 perfHW 2 4).2.1.nextFrame ∧
      (ffmpeg_get_frame (ffmpeg_init envVaapi fmtH264 1920 1080 perfHW 2 4).2.1
          false (RecvResult.ok 100) true).state.nextFrame =
        ((ffmpeg_init envVaapi fmtH264 1920 1080 perfHW 2 4).2.1.nextFrame + 1) %
          (ffmpeg_init envVaapi fmtH264 1920 1080 perfHW 2 4).2.1.decFramesCnt) :=
  C3_amended_hw_path_yields_none _ _ _ (by rfl)

/-- C7: the claim fails on the code (the code is the slip). In a software
AV1 build where no candidate advertises hardware configurations, hardware
negotiation is never performed, so the static `hw_pix_fmt` keeps its C
zero initializer — which is `AV_PIX_FMT_YUV420P`, not `AV_PIX_FMT_NONE` —
while the decoder is configured to produce exactly `AV_PIX_FMT_YUV420P`
frames. A decoded CPU-resident YUV420P frame therefore compares equal to
`hw_pix_fmt` and `ffmpeg_get_frame` attempts a GPU-to-CPU
`av_hwframe_transfer_data` into the never-allocated `sw_frame` instead of
returning the ring-slot frame directly as the claim states. -/
theorem C7_sw_frame_misclassified_as_hw :
    (ffmpeg_init envSoftwareAv1 fmtAV1 1920 1080 perfSW 2 4).1 = 0 ∧
    (ffmpeg_init envSoftwareAv1 fmtAV1 1920 1080 perfSW 2 4).2.1.ffmpegDecoder =
      DecoderKind.SOFTWARE ∧
    (ffmpeg_init envSoftwareAv1 fmtAV1 1920 1080 perfSW 2 4).2.1.hwDeviceCtx = false ∧
    (ffmpeg_init envSoftwareAv1 fmtAV1 1920 1080 perfSW 2 4).2.1.swFrame = false ∧
    (ffmpeg_init envSoftwareAv1 fmtAV1 1920 1080 perfSW 2 4).2.1.hwPixFmt =
      AV_PIX_FMT_YUV420P ∧
    (ffmpeg_get_frame (ffmpeg_init envSoftwareAv1 fmtAV1 1920 1080 perfSW 2 4).2.1
        true (RecvResult.ok AV_PIX_FMT_YUV420P) true).transferAttempted = true ∧
    (ffmpeg_get_frame (ffmpeg_init envSoftwareAv1 fmtAV1 1920 1080 perfSW 2 4).2.1
        true (RecvResult.ok AV_PIX_FMT_YUV420P) true).frame ≠
      some (FrameRef.ring 0) := by
  refine ⟨?_, ?_, ?_, ?_, ?_, ?_, ?_⟩ <;> decide

/-- C5: counterexample. With `buffer_count = 2` and the allocation of ring
slot 1 failing, `ffmpeg_init` returns -1 but releases nothing: slot 0 is
still allocated, the slot array is still allocated, and the packet and the
opened decoder context are still allocated — the claim's cleanup before
signaling `AllocationFailure` does not exist in the code. -/
theorem C5_partial_ring_not_released :
    (ffmpeg_init (envSlotFails 1) fmtH264 1920 1080 perfSW 2 4).1 = -1 ∧
    (ffmpeg_init (envSlotFails 1) fmtH264 1920 1080 perfSW 2 4).2.1.decFrames =
      some [true, false] ∧
    (ffmpeg_init (envSlotFails 1) fmtH264 1920 1080 perfSW 2 4).2.1.pkt = true ∧
    (ffmpeg_init (envSlotFails 1) fmtH264 1920 1080 perfSW 2 4).2.1.decoderCtx ≠ none := by
  refine ⟨?_, ?_, ?_, ?_⟩ <;> decide

end MoonlightFFmpeg
